import Mathlib

/-!
Verification of the radiology report feedback engine.

The development embeds the reconciliation and feedback-scoring engine of the
repository: the finding-set parsing, the style critic and the scoring model of
`AdvancedFeedbackGenerator` in `feedback_generator.py`, and the gold-standard
assembly step of `analyze_report` in `api_service.py`.

Strings are modelled as lists of characters; Python sets built by set
comprehensions are modelled as `Finset`s built from the corresponding list
by filtering, mapping and `toFinset`.
-/

namespace RadiologyAI

/-- A finding identifier or feedback message: a string, modelled as its
character sequence. -/
abbrev Finding := List Char

/-- Python `f.startswith('-')` on a finding string
(`feedback_generator.py`, lines 31-32). -/
def startsWithDash : Finding → Bool
  | [] => false
  | c :: _ => c == '-'

/-- Python `f.lstrip('-')`: removes every leading occurrence of the marker
character (`feedback_generator.py`, line 32). -/
def lstripDash (f : Finding) : Finding :=
  f.dropWhile (fun c => c == '-')

/-- Step 1 of `generate_feedback`: `expert_positives`, the set of serialized
expert findings that do not begin with the negation marker
(`feedback_generator.py`, line 31). -/
def expertPositives (expertFindings : List Finding) : Finset Finding :=
  (expertFindings.filter (fun f => !startsWithDash f)).toFinset

/-- Step 1 of `generate_feedback`: `expert_negatives`, the marker-stripped set
of serialized expert findings that begin with the negation marker
(`feedback_generator.py`, line 32). -/
def expertNegatives (expertFindings : List Finding) : Finset Finding :=
  ((expertFindings.filter (fun f => startsWithDash f)).map lstripDash).toFinset

/-- One raw candidate finding of the fallback extractor output: a `type`
string and a per-instance `negated` flag (the dictionaries iterated over in
`feedback_generator.py`, lines 35-36). -/
structure RawFinding where
  type : Finding
  negated : Bool
deriving DecidableEq

/-- The parts of `student_analysis` that `generate_feedback` reads: the
fallback findings list and the raw report text. -/
structure StudentAnalysis where
  findings : List RawFinding
  reportText : List Char
deriving DecidableEq

/-- Step 2 of `generate_feedback`: `student_positives`, the types of the
candidate findings whose `negated` flag is not set
(`feedback_generator.py`, line 35). -/
def studentPositives (findings : List RawFinding) : Finset Finding :=
  ((findings.filter (fun f => !f.negated)).map (fun f => f.type)).toFinset

/-- Step 2 of `generate_feedback`: `student_negatives`, the types of the
candidate findings whose `negated` flag is set
(`feedback_generator.py`, line 36). -/
def studentNegatives (findings : List RawFinding) : Finset Finding :=
  ((findings.filter (fun f => f.negated)).map (fun f => f.type)).toFinset

/-- The apostrophe character, kept out of string literals. -/
def apos : List Char := [Char.ofNat 39]

/-- The five unprofessional phrases of `_check_report_style`
(`feedback_generator.py`, line 11). -/
def unprofessionalPhrases : List (List Char) :=
  ["i think".toList, "looks like".toList, "maybe a".toList,
   "stuff".toList, "bad finding".toList]

/-- Python `phrase in text_lower`: substring containment. -/
def containsSub (text phrase : List Char) : Bool :=
  text.tails.any (fun t => phrase.isPrefixOf t)

/-- The advisory emitted for an unprofessional phrase
(`feedback_generator.py`, line 14). -/
def phraseMsg (phrase : List Char) : List Char :=
  "The phrase ".toList ++ apos ++ phrase ++ apos ++
  " is unprofessional. Aim for objective, confident language (e.g., ".toList ++
  apos ++ "consistent with".toList ++ apos ++ " or ".toList ++ apos ++
  "suggestive of".toList ++ apos ++ ").".toList

/-- The advisory emitted for a report of fewer than 15 words
(`feedback_generator.py`, line 19). -/
def briefMsg : List Char :=
  "The report is very brief. Ensure all relevant positive and negative findings are documented.".toList

/-- The advisory emitted for a report of more than 100 words
(`feedback_generator.py`, line 21). -/
def verboseMsg : List Char :=
  "The report is quite long. Strive for clarity and conciseness, especially in the impression.".toList

/-- Python `report_text.split()`: the maximal whitespace-free words of the
text (`feedback_generator.py`, line 17). -/
def splitWords (t : List Char) : List (List Char) :=
  (List.splitOnP (fun c => c.isWhitespace) t).filter (fun w => !w.isEmpty)

/-- `word_count = len(report_text.split())` (`feedback_generator.py`, line 17). -/
def wordCount (t : List Char) : Nat :=
  (splitWords t).length

/-- Rule 1 of `_check_report_style`: one advisory per unprofessional phrase
occurring (case-insensitively) in the text, in the phrase list definition
order (`feedback_generator.py`, lines 10-14). -/
def phraseAdvisories (reportText : List Char) : List (List Char) :=
  ((unprofessionalPhrases.filter
      (fun p => containsSub (reportText.map Char.toLower) p)).map phraseMsg)

/-- Rule 2 of `_check_report_style`: the word-count advisory, when one fires
(`feedback_generator.py`, lines 16-21). -/
def lengthAdvisories (reportText : List Char) : List (List Char) :=
  if wordCount reportText < 15 then [briefMsg]
  else if 100 < wordCount reportText then [verboseMsg]
  else []

/-- `_check_report_style`: phrase advisories in definition order followed by
the word-count advisory (`feedback_generator.py`, lines 5-23). -/
def checkReportStyle (reportText : List Char) : List (List Char) :=
  phraseAdvisories reportText ++ lengthAdvisories reportText

/-- Category 1 of `generate_feedback`: `correct_observations`
(`feedback_generator.py`, line 41). -/
def correctObservations (sP eP : Finset Finding) : Finset Finding :=
  sP ∩ eP

/-- Category 1 of `generate_feedback`: `correct_negations`
(`feedback_generator.py`, line 42). -/
def correctNegations (sN eN : Finset Finding) : Finset Finding :=
  sN ∩ eN

/-- Category 2 of `generate_feedback`: `missed_findings`
(`feedback_generator.py`, line 45). -/
def missedFindings (sP eP : Finset Finding) : Finset Finding :=
  eP \ sP

/-- Category 2 of `generate_feedback`: `missed_negations`
(`feedback_generator.py`, line 46). -/
def missedNegations (sN eN : Finset Finding) : Finset Finding :=
  eN \ sN

/-- Category 3 of `generate_feedback`: `misinterpretations`
(`feedback_generator.py`, line 49). -/
def misinterpretations (sP eP : Finset Finding) : Finset Finding :=
  sP \ eP

/-- Category 3 of `generate_feedback`: `negation_errors`
(`feedback_generator.py`, line 51). -/
def negationErrors (sP eN : Finset Finding) : Finset Finding :=
  sP ∩ eN

/-- The synthesized string `"Absence of {n}"`
(`feedback_generator.py`, line 64). -/
def absenceMsg (n : Finding) : Finding :=
  "Absence of ".toList ++ n

/-- The synthesized string `"Missed stating the absence of {n}"`
(`feedback_generator.py`, line 65). -/
def missedAbsenceMsg (n : Finding) : Finding :=
  "Missed stating the absence of ".toList ++ n

/-- The synthesized string `"Incorrectly identified {n} (should be absent)"`
(`feedback_generator.py`, line 66). -/
def incorrectlyIdentifiedMsg (n : Finding) : Finding :=
  "Incorrectly identified ".toList ++ n ++ " (should be absent)".toList

/-- The assembled `correct_observations` entry of the final feedback record,
as a set of strings (`feedback_generator.py`, line 64). -/
def correctObservationsList (sP sN eP eN : Finset Finding) : Finset Finding :=
  correctObservations sP eP ∪ (correctNegations sN eN).image absenceMsg

/-- The assembled `missed_findings` entry of the final feedback record,
as a set of strings (`feedback_generator.py`, line 65). -/
def missedFindingsList (sP sN eP eN : Finset Finding) : Finset Finding :=
  missedFindings sP eP ∪ (missedNegations sN eN).image missedAbsenceMsg

/-- The assembled `misinterpretations` entry of the final feedback record,
as a set of strings (`feedback_generator.py`, line 66). -/
def misinterpretationsList (sP eP eN : Finset Finding) : Finset Finding :=
  misinterpretations sP eP ∪ (negationErrors sP eN).image incorrectlyIdentifiedMsg

/-- The unclamped score of `generate_feedback`
(`feedback_generator.py`, lines 72-77). -/
def rawScore (sP sN eP eN : Finset Finding) (style : List (List Char)) : ℤ :=
  100 - (missedFindings sP eP).card * 15
      - (missedNegations sN eN).card * 5
      - (misinterpretations sP eP).card * 20
      - (negationErrors sP eN).card * 25
      - style.length * 5

/-- `overall_score = max(0, min(100, score))`
(`feedback_generator.py`, line 79). -/
def overallScore (sP sN eP eN : Finset Finding) (style : List (List Char)) : ℤ :=
  max 0 (min 100 (rawScore sP sN eP eN style))

/-- The `overall_score` field produced by `generate_feedback` on its actual
inputs: the student analysis record and the serialized expert findings list
(`feedback_generator.py`, lines 25-81). -/
def generateFeedbackScore (sa : StudentAnalysis) (expertFindings : List Finding) : ℤ :=
  overallScore (studentPositives sa.findings) (studentNegatives sa.findings)
    (expertPositives expertFindings) (expertNegatives expertFindings)
    (checkReportStyle sa.reportText)

/-- The `missed_findings` field produced by `generate_feedback` on its actual
inputs, as a set of strings. -/
def feedbackMissedFindings (sa : StudentAnalysis) (expertFindings : List Finding) : Finset Finding :=
  missedFindingsList (studentPositives sa.findings) (studentNegatives sa.findings)
    (expertPositives expertFindings) (expertNegatives expertFindings)

/-- The `misinterpretations` field produced by `generate_feedback` on its
actual inputs, as a set of strings. -/
def feedbackMisinterpretations (sa : StudentAnalysis) (expertFindings : List Finding) : Finset Finding :=
  misinterpretationsList (studentPositives sa.findings)
    (expertPositives expertFindings) (expertNegatives expertFindings)

/-- Step 3 of `analyze_report`: the gold standard is the union of the expert
text findings and the visual findings (`api_service.py`, lines 150-152). -/
def assembleGoldStandard (expertTextFindings visualFindings : Finset Finding) : Finset Finding :=
  expertTextFindings ∪ visualFindings

/-- The asserted side of parsing a gold-standard finding set, with the
set-comprehension semantics of `feedback_generator.py`, line 31. -/
def goldAsserted (g : Finset Finding) : Finset Finding :=
  g.filter (fun f => ¬ startsWithDash f)

/-- The negated side of parsing a gold-standard finding set, with the
set-comprehension semantics of `feedback_generator.py`, line 32. -/
def goldNegated (g : Finset Finding) : Finset Finding :=
  (g.filter (fun f => startsWithDash f = true)).image lstripDash

/-- A 15-word report containing no unprofessional phrase: it triggers no
style advisory. -/
def sampleReport : List Char :=
  "a a a a a a a a a a a a a a a".toList

/-! ### Helper lemmas -/

/-- Stripping leading markers from a string with no leading marker leaves it
unchanged. -/
theorem lstripDash_eq_self (n : Finding) (h : startsWithDash n = false) :
    lstripDash n = n := by
  cases n with
  | nil => rfl
  | cons c t =>
    simp only [startsWithDash] at h
    simp [lstripDash, List.dropWhile, h]

/-- The marker-prefixed form of a string always starts with the marker. -/
theorem startsWithDash_cons_dash (n : Finding) :
    startsWithDash ('-' :: n) = true := rfl

/-- At most five phrase advisories and one length advisory can fire. -/
theorem checkReportStyle_length_le (r : List Char) :
    (checkReportStyle r).length ≤ 6 := by
  unfold checkReportStyle phraseAdvisories lengthAdvisories
  rw [List.length_append, List.length_map]
  have h1 : ((unprofessionalPhrases.filter
      (fun p => containsSub (r.map Char.toLower) p))).length ≤ 5 := by
    calc ((unprofessionalPhrases.filter
        (fun p => containsSub (r.map Char.toLower) p))).length
        ≤ unprofessionalPhrases.length := List.length_filter_le _ _
      _ = 5 := rfl
  have h2 : (if wordCount r < 15 then [briefMsg]
      else if 100 < wordCount r then [verboseMsg] else []).length ≤ 1 := by
    split
    · simp
    · split <;> simp
  omega

/-- Stripping the marker-prefixed form of a marker-free string recovers the
string. -/
theorem lstripDash_dash_cons (n : Finding) (h : startsWithDash n = false) :
    lstripDash ('-' :: n) = n := by
  rw [lstripDash, List.dropWhile_cons]
  simp only [beq_self_eq_true, if_true]
  exact lstripDash_eq_self n h

/-- No phrase advisory coincides with a word-count advisory. -/
theorem phraseMsg_ne_lengthMsg :
    ∀ p ∈ unprofessionalPhrases, phraseMsg p ≠ briefMsg ∧ phraseMsg p ≠ verboseMsg := by
  decide

/-- The two word-count advisories are distinct strings. -/
theorem briefMsg_ne_verboseMsg : briefMsg ≠ verboseMsg := by decide

/-! ### Claims -/

/-- C3: for any input learner and gold finding sets, the base finding types
underlying the correct observations, missed findings and misinterpretation
categories of `generate_feedback` are pairwise disjoint. -/
theorem c3_categories_pairwise_disjoint (sP eP : Finset Finding) :
    Disjoint (correctObservations sP eP) (missedFindings sP eP) ∧
    Disjoint (correctObservations sP eP) (misinterpretations sP eP) ∧
    Disjoint (missedFindings sP eP) (misinterpretations sP eP) := by
  refine ⟨?_, ?_, ?_⟩ <;>
    · rw [Finset.disjoint_left]
      intro a ha hb
      simp only [correctObservations, missedFindings, misinterpretations,
        Finset.mem_inter, Finset.mem_sdiff] at ha hb
      tauto

/-- C6: for every student analysis and expert findings list, the overall
score returned by `generate_feedback` lies in the closed interval 0 to 100. -/
theorem c6_score_bounded (sa : StudentAnalysis) (ef : List Finding) :
    0 ≤ generateFeedbackScore sa ef ∧ generateFeedbackScore sa ef ≤ 100 := by
  unfold generateFeedbackScore overallScore
  exact ⟨le_max_left _ _, max_le (by norm_num) (min_le_left _ _)⟩

/-- C2: the claim that no type appears in both the asserted and the negated
learner set fails; a type mentioned both negated and unnegated lands in both
sets. -/
theorem c2_counterexample :
    "x".toList ∈ studentPositives [⟨"x".toList, false⟩, ⟨"x".toList, true⟩] ∧
    "x".toList ∈ studentNegatives [⟨"x".toList, false⟩, ⟨"x".toList, true⟩] := by
  decide

/-- C2 amended: a type is in the negated set exactly when some candidate
instance of it is flagged negated, and in the asserted set exactly when some
candidate instance of it is unflagged; there is no negated precedence, so a
type with both kinds of mentions appears in both sets. -/
theorem c2_amended_finding_set_builder (findings : List RawFinding) (t : Finding) :
    (t ∈ studentNegatives findings ↔
      ∃ f, f ∈ findings ∧ f.negated = true ∧ f.type = t) ∧
    (t ∈ studentPositives findings ↔
      ∃ f, f ∈ findings ∧ f.negated = false ∧ f.type = t) := by
  constructor
  · simp only [studentNegatives, List.mem_toFinset, List.mem_map, List.mem_filter]
    constructor
    · rintro ⟨f, ⟨hf, hneg⟩, ht⟩
      exact ⟨f, hf, hneg, ht⟩
    · rintro ⟨f, hf, hneg, ht⟩
      exact ⟨f, ⟨hf, hneg⟩, ht⟩
  · simp only [studentPositives, List.mem_toFinset, List.mem_map, List.mem_filter,
      Bool.not_eq_true']
    constructor
    · rintro ⟨f, ⟨hf, hneg⟩, ht⟩
      exact ⟨f, hf, hneg, ht⟩
    · rintro ⟨f, hf, hneg, ht⟩
      exact ⟨f, ⟨hf, hneg⟩, ht⟩

/-- C10: a serialized gold finding goes to the negated set exactly when it
begins with the marker, with every leading marker stripped, so the forms with
one and with two markers collapse to the same negated type; strings without a
leading marker go to the asserted set unchanged. -/
theorem c10_gold_parsing (l : List Finding) (t : Finding) :
    (t ∈ expertNegatives l ↔
      ∃ f, f ∈ l ∧ startsWithDash f = true ∧ lstripDash f = t) ∧
    (t ∈ expertPositives l ↔ t ∈ l ∧ startsWithDash t = false) ∧
    expertNegatives ["-x".toList] = {"x".toList} ∧
    expertNegatives ["--x".toList] = {"x".toList} := by
  refine ⟨?_, ?_, by decide, by decide⟩
  · simp only [expertNegatives, List.mem_toFinset, List.mem_map, List.mem_filter]
    constructor
    · rintro ⟨f, ⟨hf, hd⟩, ht⟩
      exact ⟨f, hf, hd, ht⟩
    · rintro ⟨f, hf, hd, ht⟩
      exact ⟨f, ⟨hf, hd⟩, ht⟩
  · simp only [expertPositives, List.mem_toFinset, List.mem_filter,
      Bool.not_eq_true']

/-- C8: the style critic emits the brevity advisory exactly when the word
count is below 15 and the verbosity advisory exactly when it exceeds 100,
never both; the advisory list is the phrase advisories, a sublist of the
phrase list in definition order, followed by at most one word-count
advisory. -/
theorem c8_style_critic (r : List Char) :
    (briefMsg ∈ checkReportStyle r ↔ wordCount r < 15) ∧
    (verboseMsg ∈ checkReportStyle r ↔ 100 < wordCount r) ∧
    ¬ (briefMsg ∈ checkReportStyle r ∧ verboseMsg ∈ checkReportStyle r) ∧
    ∃ ph lf, checkReportStyle r = ph ++ lf ∧
      ph.Sublist (unprofessionalPhrases.map phraseMsg) ∧
      lf.length ≤ 1 ∧
      (∀ m ∈ lf, m = briefMsg ∨ m = verboseMsg) := by
  have hb_not_ph : briefMsg ∉ phraseAdvisories r := by
    simp only [phraseAdvisories, List.mem_map, List.mem_filter]
    rintro ⟨p, ⟨hp, _⟩, heq⟩
    exact (phraseMsg_ne_lengthMsg p hp).1 heq
  have hv_not_ph : verboseMsg ∉ phraseAdvisories r := by
    simp only [phraseAdvisories, List.mem_map, List.mem_filter]
    rintro ⟨p, ⟨hp, _⟩, heq⟩
    exact (phraseMsg_ne_lengthMsg p hp).2 heq
  have hb_len : briefMsg ∈ lengthAdvisories r ↔ wordCount r < 15 := by
    unfold lengthAdvisories
    split_ifs with h1 h2
    · simp [h1]
    · exact iff_of_false (by simp [briefMsg_ne_verboseMsg]) h1
    · exact iff_of_false (by simp) h1
  have hv_len : verboseMsg ∈ lengthAdvisories r ↔ 100 < wordCount r := by
    unfold lengthAdvisories
    split_ifs with h1 h2
    · exact iff_of_false (by simp [Ne.symm briefMsg_ne_verboseMsg]) (by omega)
    · simp [h2]
    · exact iff_of_false (by simp) h2
  have hb : briefMsg ∈ checkReportStyle r ↔ wordCount r < 15 := by
    unfold checkReportStyle
    rw [List.mem_append]
    constructor
    · rintro (h | h)
      · exact absurd h hb_not_ph
      · exact hb_len.mp h
    · intro h
      exact Or.inr (hb_len.mpr h)
  have hv : verboseMsg ∈ checkReportStyle r ↔ 100 < wordCount r := by
    unfold checkReportStyle
    rw [List.mem_append]
    constructor
    · rintro (h | h)
      · exact absurd h hv_not_ph
      · exact hv_len.mp h
    · intro h
      exact Or.inr (hv_len.mpr h)
  refine ⟨hb, hv, ?_, phraseAdvisories r, lengthAdvisories r, rfl, ?_, ?_, ?_⟩
  · rintro ⟨h1, h2⟩
    have hw1 := hb.mp h1
    have hw2 := hv.mp h2
    omega
  · exact List.Sublist.map phraseMsg (List.filter_sublist _)
  · unfold lengthAdvisories
    split_ifs <;> simp
  · intro m hm
    unfold lengthAdvisories at hm
    split_ifs at hm
    · simp at hm
      exact Or.inl hm
    · simp at hm
      exact Or.inr hm
    · simp at hm

/-- C9: the gold standard assembler unions the expert findings with the
auxiliary findings: the parsed asserted set is the union of the
expert-asserted and auxiliary sets, the parsed negated set is the
expert-negated set unchanged, and the assembled set does not depend on the
order of the two asserted inputs. -/
theorem c9_gold_standard_assembler (eA eN aux : Finset Finding)
    (hA : ∀ f ∈ eA, startsWithDash f = false)
    (hN : ∀ n ∈ eN, startsWithDash n = false)
    (hX : ∀ f ∈ aux, startsWithDash f = false) :
    goldAsserted (assembleGoldStandard (eA ∪ eN.image (fun n => '-' :: n)) aux)
      = eA ∪ aux ∧
    goldNegated (assembleGoldStandard (eA ∪ eN.image (fun n => '-' :: n)) aux)
      = eN ∧
    assembleGoldStandard (eA ∪ eN.image (fun n => '-' :: n)) aux
      = assembleGoldStandard (aux ∪ eN.image (fun n => '-' :: n)) eA := by
  refine ⟨?_, ?_, ?_⟩
  · ext a
    simp only [goldAsserted, assembleGoldStandard, Finset.mem_filter,
      Finset.mem_union, Finset.mem_image]
    constructor
    · rintro ⟨(ha | ⟨n, hn, rfl⟩) | ha, hd⟩
      · exact Or.inl ha
      · exact absurd (startsWithDash_cons_dash n) (by simpa using hd)
      · exact Or.inr ha
    · rintro (ha | ha)
      · exact ⟨Or.inl (Or.inl ha), by simp [hA a ha]⟩
      · exact ⟨Or.inr ha, by simp [hX a ha]⟩
  · ext a
    simp only [goldNegated, assembleGoldStandard, Finset.mem_image,
      Finset.mem_filter, Finset.mem_union]
    constructor
    · rintro ⟨f, ⟨(hf | ⟨n, hn, rfl⟩) | hf, hd⟩, rfl⟩
      · exact absurd hd (by simp [hA f hf])
      · rw [lstripDash_dash_cons n (hN n hn)]
        exact hn
      · exact absurd hd (by simp [hX f hf])
    · intro ha
      exact ⟨'-' :: a, ⟨Or.inl (Or.inr ⟨a, ha, rfl⟩), startsWithDash_cons_dash a⟩,
        lstripDash_dash_cons a (hN a ha)⟩
  · ext a
    simp only [assembleGoldStandard, Finset.mem_union, Finset.mem_image]
    constructor
    · rintro ((h | h) | h)
      · exact Or.inr h
      · exact Or.inl (Or.inr h)
      · exact Or.inl (Or.inl h)
    · rintro ((h | h) | h)
      · exact Or.inr h
      · exact Or.inl (Or.inr h)
      · exact Or.inl (Or.inl h)

/-- C9 witness: the assembler theorem applied to singleton expert-asserted,
expert-negated and auxiliary sets. -/
theorem c9_witness :
    ((∀ f ∈ ({['a']} : Finset Finding), startsWithDash f = false) ∧
     (∀ n ∈ ({['b']} : Finset Finding), startsWithDash n = false) ∧
     (∀ f ∈ ({['c']} : Finset Finding), startsWithDash f = false)) ∧
    (goldAsserted (assembleGoldStandard
        (({['a']} : Finset Finding) ∪
          ({['b']} : Finset Finding).image (fun n => '-' :: n)) {['c']})
      = {['a']} ∪ {['c']} ∧
     goldNegated (assembleGoldStandard
        (({['a']} : Finset Finding) ∪
          ({['b']} : Finset Finding).image (fun n => '-' :: n)) {['c']})
      = {['b']} ∧
     assembleGoldStandard
        (({['a']} : Finset Finding) ∪
          ({['b']} : Finset Finding).image (fun n => '-' :: n)) {['c']}
      = assembleGoldStandard
        (({['c']} : Finset Finding) ∪
          ({['b']} : Finset Finding).image (fun n => '-' :: n)) {['a']}) :=
  ⟨⟨by decide, by decide, by decide⟩,
    c9_gold_standard_assembler {['a']} {['b']} {['c']}
      (by decide) (by decide) (by decide)⟩

/-- C5: adding one gold-asserted finding type that is neither already in the
gold asserted set nor asserted or negated by the learner changes the overall
score to exactly the previous score minus 15, clamped at 0. -/
theorem c5_missed_finding_penalty (sP sN eP eN : Finset Finding) (rt : List Char)
    (t : Finding) (h1 : t ∉ eP) (h2 : t ∉ sP) (h3 : t ∉ sN) :
    overallScore sP sN (insert t eP) eN (checkReportStyle rt)
      = max 0 (overallScore sP sN eP eN (checkReportStyle rt) - 15) := by
  have hm : missedFindings sP (insert t eP) = insert t (missedFindings sP eP) := by
    unfold missedFindings
    ext a
    simp only [Finset.mem_sdiff, Finset.mem_insert]
    constructor
    · rintro ⟨rfl | ha, hs⟩
      · exact Or.inl rfl
      · exact Or.inr ⟨ha, hs⟩
    · rintro (rfl | ⟨ha, hs⟩)
      · exact ⟨Or.inl rfl, h2⟩
      · exact ⟨Or.inr ha, hs⟩
  have htm : t ∉ missedFindings sP eP := by
    simp only [missedFindings, Finset.mem_sdiff, not_and]
    intro ha
    exact absurd ha h1
  have hmc : (insert t (missedFindings sP eP)).card
      = (missedFindings sP eP).card + 1 :=
    Finset.card_insert_of_not_mem htm
  have hmis : misinterpretations sP (insert t eP) = misinterpretations sP eP := by
    unfold misinterpretations
    ext a
    simp only [Finset.mem_sdiff, Finset.mem_insert, not_or]
    constructor
    · rintro ⟨ha, _, hnotin⟩
      exact ⟨ha, hnotin⟩
    · rintro ⟨ha, hnotin⟩
      refine ⟨ha, ?_, hnotin⟩
      rintro rfl
      exact h2 ha
  unfold overallScore rawScore
  rw [hm, hmc, hmis]
  simp only [max_def, min_def]
  split_ifs <;> omega

/-- C5 witness: the penalty theorem applied to empty learner sets and an
empty gold asserted set. -/
theorem c5_witness :
    ((("x".toList : Finding) ∉ (∅ : Finset Finding)) ∧
     (("x".toList : Finding) ∉ (∅ : Finset Finding)) ∧
     (("x".toList : Finding) ∉ (∅ : Finset Finding))) ∧
    overallScore ∅ ∅ (insert "x".toList ∅) ∅ (checkReportStyle sampleReport)
      = max 0 (overallScore ∅ ∅ ∅ ∅ (checkReportStyle sampleReport) - 15) :=
  ⟨⟨by decide, by decide, by decide⟩,
    c5_missed_finding_penalty ∅ ∅ ∅ ∅ sampleReport "x".toList
      (by decide) (by decide) (by decide)⟩

/-- C1: the claim fails on the code: the synthesized message reads
"Incorrectly identified ...", not "incorrectly asserted ...", and the score
drops by 45 from the baseline, not 25, because the finding also counts as a
misinterpretation. -/
theorem c1_counterexample :
    "incorrectly asserted pneumothorax (should be absent)".toList ∉
      feedbackMisinterpretations ⟨[⟨"pneumothorax".toList, false⟩], sampleReport⟩
        ["-pneumothorax".toList] ∧
    generateFeedbackScore ⟨[⟨"pneumothorax".toList, false⟩], sampleReport⟩
      ["-pneumothorax".toList] = 50 ∧
    generateFeedbackScore ⟨[], sampleReport⟩ ["-pneumothorax".toList] = 95 ∧
    (95 : ℤ) - 25 ≠ 50 := by
  decide

/-- C1 amended: asserting a gold-negated finding places the string
"Incorrectly identified pneumothorax (should be absent)" in the
misinterpretations and yields a score exactly 45 below the baseline without
that assertion, since both the 20-point misinterpretation penalty and the
25-point negation-error penalty apply. -/
theorem c1_amended_negation_scenario (r : List Char) :
    incorrectlyIdentifiedMsg "pneumothorax".toList ∈
      feedbackMisinterpretations ⟨[⟨"pneumothorax".toList, false⟩], r⟩
        ["-pneumothorax".toList] ∧
    generateFeedbackScore ⟨[⟨"pneumothorax".toList, false⟩], r⟩
        ["-pneumothorax".toList]
      = generateFeedbackScore ⟨[], r⟩ ["-pneumothorax".toList] - 45 := by
  constructor
  · show incorrectlyIdentifiedMsg "pneumothorax".toList ∈
      misinterpretationsList (studentPositives [⟨"pneumothorax".toList, false⟩])
        (expertPositives ["-pneumothorax".toList])
        (expertNegatives ["-pneumothorax".toList])
    decide
  · have hs := checkReportStyle_length_le r
    show overallScore (studentPositives [⟨"pneumothorax".toList, false⟩])
        (studentNegatives [⟨"pneumothorax".toList, false⟩])
        (expertPositives ["-pneumothorax".toList])
        (expertNegatives ["-pneumothorax".toList]) (checkReportStyle r)
      = overallScore (studentPositives ([] : List RawFinding))
        (studentNegatives ([] : List RawFinding))
        (expertPositives ["-pneumothorax".toList])
        (expertNegatives ["-pneumothorax".toList]) (checkReportStyle r) - 45
    have e1 : studentPositives [⟨"pneumothorax".toList, false⟩]
        = {"pneumothorax".toList} := by decide
    have e2 : studentNegatives [⟨"pneumothorax".toList, false⟩] = ∅ := by decide
    have e3 : expertPositives ["-pneumothorax".toList] = ∅ := by decide
    have e4 : expertNegatives ["-pneumothorax".toList]
        = {"pneumothorax".toList} := by decide
    have e5 : studentPositives ([] : List RawFinding) = ∅ := by decide
    have e6 : studentNegatives ([] : List RawFinding) = ∅ := by decide
    rw [e1, e2, e3, e4, e5, e6]
    unfold overallScore rawScore missedFindings missedNegations misinterpretations
      negationErrors
    simp only [Finset.empty_sdiff, Finset.sdiff_empty, Finset.inter_self,
      Finset.empty_inter, Finset.card_singleton, Finset.card_empty]
    simp only [max_def, min_def]
    split_ifs <;> omega

/-- C4: the identity claim fails when a type sits in both gold sets: with
learner sets equal to overlapping gold sets and no style advisory, the score
is 75 and the misinterpretations entry is nonempty. -/
theorem c4_counterexample :
    studentPositives [⟨"x".toList, false⟩, ⟨"x".toList, true⟩]
      = expertPositives ["x".toList, "-x".toList] ∧
    studentNegatives [⟨"x".toList, false⟩, ⟨"x".toList, true⟩]
      = expertNegatives ["x".toList, "-x".toList] ∧
    checkReportStyle sampleReport = [] ∧
    generateFeedbackScore ⟨[⟨"x".toList, false⟩, ⟨"x".toList, true⟩], sampleReport⟩
      ["x".toList, "-x".toList] = 75 ∧
    (75 : ℤ) ≠ 100 ∧
    feedbackMisinterpretations
      ⟨[⟨"x".toList, false⟩, ⟨"x".toList, true⟩], sampleReport⟩
      ["x".toList, "-x".toList] ≠ ∅ := by
  decide

/-- C4 amended: when the learner sets equal the gold sets, no style advisory
fires, and the gold asserted and negated sets are disjoint, the overall score
is 100 and the missed-findings and misinterpretations entries are empty. -/
theorem c4_amended_identity (sa : StudentAnalysis) (ef : List Finding)
    (h1 : studentPositives sa.findings = expertPositives ef)
    (h2 : studentNegatives sa.findings = expertNegatives ef)
    (h3 : checkReportStyle sa.reportText = [])
    (h4 : Disjoint (expertPositives ef) (expertNegatives ef)) :
    generateFeedbackScore sa ef = 100 ∧
    feedbackMissedFindings sa ef = ∅ ∧
    feedbackMisinterpretations sa ef = ∅ := by
  have hni : expertPositives ef ∩ expertNegatives ef = ∅ :=
    Finset.disjoint_iff_inter_eq_empty.mp h4
  refine ⟨?_, ?_, ?_⟩
  · unfold generateFeedbackScore overallScore rawScore missedFindings
      missedNegations misinterpretations negationErrors
    rw [h1, h2, h3]
    simp only [Finset.sdiff_self, Finset.card_empty, hni, List.length_nil]
    norm_num
  · unfold feedbackMissedFindings missedFindingsList missedFindings missedNegations
    rw [h1, h2]
    simp [Finset.sdiff_self]
  · unfold feedbackMisinterpretations misinterpretationsList misinterpretations
      negationErrors
    rw [h1]
    simp [Finset.sdiff_self, hni]

/-- C4 witness: the amended identity theorem applied to one matching asserted
finding and a style-clean report. -/
theorem c4_witness :
    (studentPositives [(⟨"x".toList, false⟩ : RawFinding)]
        = expertPositives ["x".toList] ∧
     studentNegatives [(⟨"x".toList, false⟩ : RawFinding)]
        = expertNegatives ["x".toList] ∧
     checkReportStyle sampleReport = [] ∧
     Disjoint (expertPositives ["x".toList]) (expertNegatives ["x".toList])) ∧
    (generateFeedbackScore ⟨[⟨"x".toList, false⟩], sampleReport⟩ ["x".toList] = 100 ∧
     feedbackMissedFindings ⟨[⟨"x".toList, false⟩], sampleReport⟩ ["x".toList] = ∅ ∧
     feedbackMisinterpretations ⟨[⟨"x".toList, false⟩], sampleReport⟩ ["x".toList]
        = ∅) :=
  ⟨⟨by decide, by decide, by decide, by decide⟩,
    c4_amended_identity ⟨[⟨"x".toList, false⟩], sampleReport⟩ ["x".toList]
      (by decide) (by decide) (by decide) (by decide)⟩

/-- C7: the empty-gold claim fails as stated: with an empty gold standard and
no learner assertion, style advisories alone push the score below 100. -/
theorem c7_counterexample :
    expertPositives [] = ∅ ∧ expertNegatives [] = ∅ ∧
    studentPositives ([] : List RawFinding) = ∅ ∧
    generateFeedbackScore ⟨[], "i think".toList⟩ [] = 90 ∧
    (90 : ℤ) ≠ 100 := by
  decide

/-- C7 amended: an empty gold standard is not an error: the missed-findings
entry is always empty, and the score is 100 when additionally the learner
asserts no findings and the report triggers no style advisory. -/
theorem c7_amended_empty_gold (sa : StudentAnalysis) :
    feedbackMissedFindings sa [] = ∅ ∧
    (studentPositives sa.findings = ∅ → checkReportStyle sa.reportText = [] →
      generateFeedbackScore sa [] = 100) := by
  have he : expertPositives [] = ∅ := rfl
  have hn : expertNegatives [] = ∅ := rfl
  constructor
  · unfold feedbackMissedFindings missedFindingsList missedFindings missedNegations
    rw [he, hn]
    simp [Finset.empty_sdiff]
  · intro h1 h2
    unfold generateFeedbackScore overallScore rawScore missedFindings
      missedNegations misinterpretations negationErrors
    rw [h1, h2, he, hn]
    simp only [Finset.empty_sdiff, Finset.sdiff_empty, Finset.empty_inter,
      Finset.card_empty, List.length_nil]
    norm_num

/-- C7 witness: the amended empty-gold theorem applied to an empty learner
analysis with a style-clean report. -/
theorem c7_witness :
    (studentPositives ([] : List RawFinding) = ∅ ∧
     checkReportStyle sampleReport = []) ∧
    (feedbackMissedFindings ⟨[], sampleReport⟩ [] = ∅ ∧
     generateFeedbackScore ⟨[], sampleReport⟩ [] = 100) :=
  ⟨⟨by decide, by decide⟩,
    ⟨(c7_amended_empty_gold ⟨[], sampleReport⟩).1,
     (c7_amended_empty_gold ⟨[], sampleReport⟩).2 (by decide) (by decide)⟩⟩

end RadiologyAI
